import Mathlib

/-!
Verification of the TestsFastAPI quiz service (user registration, test
authoring, test-taking sessions, scoring, statistics).

The relational rows (users, tests, questions, test_attempts, answers) are
modelled as Lean structures and the database as lists of rows plus the
per-table AUTO_INCREMENT counters.  Each HTTP handler from `routes/` is a
function from the database state to `Except ApiError (response × state)`:
a handler raising an `HTTPException` before `commit` corresponds to an
`.error` result, and — matching the logical-transaction semantics of one
request = one MySQL transaction (uncommitted writes are rolled back on the
exception path) — an `.error` result carries no new state.

Numbers: MySQL FLOAT / Python float values are modelled as rationals (ℚ);
DATETIME values as natural-number timestamps supplied by the caller (the
code reads the clock / lets MySQL default `CURRENT_TIMESTAMP`).
`random.shuffle` is modelled by an index sequence `rand n` supplied as an
oracle; a real shuffle corresponds to `rand n` being a permutation of the
positions `0..n-1` (`random.shuffle` permutes by position only, never
inspecting row contents).  `bcrypt.hashpw` with its random salt is an
oracle `hashpw : String → String`.
-/

namespace TestsFastAPI

/-- Row of the `users` table (db.py): id, email, password_hash, role. -/
structure UserRow where
  id : Nat
  email : String
  password_hash : String
  role : String
deriving DecidableEq

/-- Row of the `tests` table. -/
structure TestRow where
  id : Nat
  title : String
  description : Option String
  creator_id : Nat
  time_limit : Option Int
  shuffle_questions : Bool
deriving DecidableEq

/-- Row of the `questions` table.  `options` is the JSON column decoded:
`none` models SQL NULL, `some l` a JSON array (the code only ever stores
non-empty arrays or NULL).  `correct_answer` is a nullable TEXT column. -/
structure QuestionRow where
  id : Nat
  test_id : Nat
  text : String
  type : String
  options : Option (List String)
  correct_answer : Option String
deriving DecidableEq

/-- Row of the `test_attempts` table.  `score` and `end_time` are nullable;
`end_time = none` means the attempt is in progress. -/
structure AttemptRow where
  id : Nat
  user_id : Nat
  test_id : Nat
  score : Option ℚ
  start_time : Nat
  end_time : Option Nat
deriving DecidableEq

/-- Row of the `answers` table. -/
structure AnswerRow where
  id : Nat
  attempt_id : Nat
  question_id : Nat
  answer : String
  is_correct : Bool
  answer_time : Option ℚ
deriving DecidableEq

/-- The relational store: one list of rows per table, in insertion order,
plus the AUTO_INCREMENT counter of each table. -/
structure DB where
  users : List UserRow
  tests : List TestRow
  questions : List QuestionRow
  attempts : List AttemptRow
  answers : List AnswerRow
  next_user_id : Nat
  next_test_id : Nat
  next_question_id : Nat
  next_attempt_id : Nat
  next_answer_id : Nat
deriving DecidableEq

/-- The error taxonomy of the service, as produced by the handlers:
`validation` = HTTP 400, `unauthorized` = 401, `forbidden` = 403,
`notFound` = 404, `integrity` = 400 "Database integrity error",
`internal` = 500. -/
inductive ApiError where
  | validation
  | unauthorized
  | forbidden
  | notFound
  | integrity
  | internal
deriving DecidableEq

/-- `SELECT ... FROM users WHERE id = %s` followed by `fetchone()`. -/
def findUser (db : DB) (user_id : Nat) : Option UserRow :=
  db.users.find? (fun u => u.id == user_id)

/-- `SELECT ... FROM tests WHERE id = %s` followed by `fetchone()`. -/
def findTest (db : DB) (test_id : Nat) : Option TestRow :=
  db.tests.find? (fun t => t.id == test_id)

/-- `SELECT ... FROM questions WHERE test_id = %s` (table order). -/
def testQuestions (db : DB) (test_id : Nat) : List QuestionRow :=
  db.questions.filter (fun q => q.test_id == test_id)

/-- Body of `POST /auth/register` (routes/auth.py `RegisterRequest`):
plain strings, no field validators. -/
structure RegisterRequest where
  email : String
  password : String
  role : String
deriving DecidableEq

/-- `register` from routes/auth.py: reject when the email is already
registered, otherwise hash the password (bcrypt oracle `hashpw`) and
insert the user verbatim — the handler performs no email-format,
password-length or role validation (`RegisterRequest` has no validators;
`UserSchema` of schemas.py is never applied).  The post-insert existence
re-check of the code always succeeds in this model and is omitted. -/
def register (hashpw : String → String) (data : RegisterRequest) (db : DB) :
    Except ApiError (Nat × DB) :=
  match db.users.find? (fun u => u.email == data.email) with
  | some _ => .error .validation
  | none =>
    let usr : UserRow :=
      { id := db.next_user_id, email := data.email,
        password_hash := hashpw data.password, role := data.role }
    .ok (usr.id,
      { db with users := db.users ++ [usr], next_user_id := db.next_user_id + 1 })

/-- One question as rendered by `start_test`: only id, text, type and
options — the response type has no correct_answer field. -/
structure QuestionView where
  id : Nat
  text : String
  type : String
  options : Option (List String)
deriving DecidableEq

/-- Response of `POST /tests/{id}/start`. -/
structure StartResponse where
  test_id : Nat
  questions : List QuestionView
deriving DecidableEq

/-- `random.shuffle` applied to `l`, modelled by the index sequence
`idxs`: the shuffled list picks positions of `l` in the order given
(an actual shuffle is `idxs` a permutation of `0..l.length-1`). -/
def permuteIdx (idxs : List Nat) (l : List QuestionRow) : List QuestionRow :=
  idxs.filterMap (fun i => l[i]?)

/-- Projection of a question row to the fields `start_test` returns. -/
def toQuestionView (q : QuestionRow) : QuestionView :=
  { id := q.id, text := q.text, type := q.type, options := q.options }

/-- The `test_attempts` row inserted by `start_test`:
`INSERT INTO test_attempts (user_id, test_id)` with `score`,`end_time`
NULL and `start_time` defaulted to the current time. -/
def newAttempt (db : DB) (user_id test_id now : Nat) : AttemptRow :=
  { id := db.next_attempt_id, user_id := user_id, test_id := test_id,
    score := none, start_time := now, end_time := none }

/-- `start_test` from routes/test_execution.py: participant role check
(403), test existence (404), refuse when any attempt for (user, test)
already exists (403), insert the attempt, then return the test's
questions — shuffled when `shuffle_questions` — projected to
id/text/type/options.  The code's second `SELECT shuffle_questions FROM
tests WHERE id = %s` re-reads the row found by the existence check and is
served by the same row here. -/
def start_test (test_id user_id now : Nat) (rand : Nat → List Nat) (db : DB) :
    Except ApiError (StartResponse × DB) :=
  match findUser db user_id with
  | none => .error .forbidden
  | some u =>
    if u.role ≠ "participant" then .error .forbidden
    else
      match findTest db test_id with
      | none => .error .notFound
      | some tst =>
        match db.attempts.find? (fun a => a.user_id == user_id && a.test_id == test_id) with
        | some _ => .error .forbidden
        | none =>
          .ok ({ test_id := test_id,
                 questions := (if tst.shuffle_questions then
                     permuteIdx (rand (testQuestions db test_id).length) (testQuestions db test_id)
                   else testQuestions db test_id).map toQuestionView },
            { db with attempts := db.attempts ++ [newAttempt db user_id test_id now],
                      next_attempt_id := db.next_attempt_id + 1 })

/-- One element of the submitted `answers` list of `POST /tests/{id}/submit`:
`question_id`, `answer`, optional `answer_time`. -/
structure SubmittedAnswer where
  question_id : Nat
  answer : String
  answer_time : Option ℚ
deriving DecidableEq

/-- The `answer_schema.load` validation applied to each submitted answer
(schemas.py `AnswerSchema`): `answer` at most 200 characters,
`answer_time`, when present, non-negative. -/
def validAnswer (a : SubmittedAnswer) : Bool :=
  decide (a.answer.length ≤ 200) &&
    (match a.answer_time with
     | none => true
     | some t => decide (0 ≤ t))

/-- `ans['answer'] == question['correct_answer']`: exact string equality;
comparison with a NULL correct_answer is false (Python `str == None`). -/
def answer_is_correct (q : QuestionRow) (a : SubmittedAnswer) : Bool :=
  match q.correct_answer with
  | some c => a.answer == c
  | none => false

/-- Whether a submitted answer would be graded correct against the
database: the per-answer `SELECT correct_answer FROM questions WHERE
id = %s` followed by the exact string comparison. -/
def isCorrectSub (db : DB) (a : SubmittedAnswer) : Bool :=
  match db.questions.find? (fun q => q.id == a.question_id) with
  | some q => answer_is_correct q a
  | none => false

/-- `SELECT id FROM test_attempts WHERE user_id = %s AND test_id = %s AND
end_time IS NULL` followed by `fetchone()`. -/
def openAttempt (db : DB) (user_id test_id : Nat) : Option AttemptRow :=
  db.attempts.find? (fun a => a.user_id == user_id && a.test_id == test_id && a.end_time.isNone)

/-- One element of the `correct_answers` list returned by `submit_test`. -/
structure CorrectView where
  question_id : Nat
  correct_answer : Option String
deriving DecidableEq

/-- Response of `POST /tests/{id}/submit`. -/
structure SubmitResponse where
  score : ℚ
  correct_answers : List CorrectView
deriving DecidableEq

/-- The grading loop of `submit_test`: for each submitted answer in
submission order, fetch its question by id (rolling the whole transaction
back with a 400 when the question is missing or belongs to another test),
compare the answer, insert an `answers` row with the next AUTO_INCREMENT
id, and record the revealed correct answer.  Returns the number of correct
answers, the inserted rows in insertion order, and the `correct_answers`
response entries. -/
def gradeAnswers (db : DB) (test_id attempt_id : Nat) :
    List SubmittedAnswer → Nat → Except ApiError (Nat × List AnswerRow × List CorrectView)
  | [], _ => .ok (0, [], [])
  | a :: rest, nid =>
    match db.questions.find? (fun q => q.id == a.question_id) with
    | none => .error .validation
    | some q =>
      if q.test_id ≠ test_id then .error .validation
      else
        match gradeAnswers db test_id attempt_id rest (nid + 1) with
        | .error e => .error e
        | .ok (s, rows, cvs) =>
          .ok ((if answer_is_correct q a then s + 1 else s),
            ({ id := nid, attempt_id := attempt_id, question_id := a.question_id,
               answer := a.answer, is_correct := answer_is_correct q a,
               answer_time := some (a.answer_time.getD 0) } :: rows),
            ({ question_id := a.question_id, correct_answer := q.correct_answer } :: cvs))

/-- `final_score = (score / total_questions) * 100 if total_questions > 0
else 0` — the division-by-zero guard of submit step 6. -/
def finalScore (s total : Nat) : ℚ :=
  if 0 < total then ((s : ℚ) / (total : ℚ)) * 100 else 0

/-- `submit_test` from routes/test_execution.py, in the code's check
order: empty answers list (400), `answer_schema` validation (400),
participant role (403), test existence (404), open attempt with
`end_time IS NULL` (403), batch membership of every submitted
`question_id` in the test's question set (400), then the grading loop,
the attempt update setting `score` and `end_time`, and the commit. -/
def submit_test (test_id user_id : Nat) (answers : List SubmittedAnswer) (now : Nat) (db : DB) :
    Except ApiError (SubmitResponse × DB) :=
  if answers.isEmpty then .error .validation
  else if ¬ (answers.all validAnswer) then .error .validation
  else
    match findUser db user_id with
    | none => .error .forbidden
    | some u =>
      if u.role ≠ "participant" then .error .forbidden
      else
        match findTest db test_id with
        | none => .error .notFound
        | some _ =>
          match openAttempt db user_id test_id with
          | none => .error .forbidden
          | some att =>
            if ¬ (answers.all (fun a => ((testQuestions db test_id).map (fun q => q.id)).contains a.question_id))
            then .error .validation
            else
              match gradeAnswers db test_id att.id answers db.next_answer_id with
              | .error e => .error e
              | .ok (s, rows, cvs) =>
                .ok ({ score := finalScore s (testQuestions db test_id).length,
                       correct_answers := cvs },
                  { db with
                    answers := db.answers ++ rows,
                    attempts := db.attempts.map (fun a =>
                      if a.id == att.id then
                        { a with score := some (finalScore s (testQuestions db test_id).length),
                                 end_time := some now }
                      else a),
                    next_answer_id := db.next_answer_id + rows.length })

/-- `check_creator_permission` from utils.py: creator role required (403);
then, only when the `test_id` argument is truthy — Python `if test_id:` is
false for `None` and for `0` — the test must exist and be owned by the
caller, a missing test and an ownership mismatch both reporting 404. -/
def check_creator_permission (user_id : Nat) (test_id : Option Nat) (db : DB) :
    Except ApiError Unit :=
  match findUser db user_id with
  | none => .error .forbidden
  | some u =>
    if u.role ≠ "creator" then .error .forbidden
    else
      match test_id with
      | none => .ok ()
      | some t =>
        if t = 0 then .ok ()
        else
          match findTest db t with
          | none => .error .notFound
          | some tst =>
            if tst.creator_id ≠ user_id then .error .notFound else .ok ()

/-- One question of the `GET /tests/{id}` detail response — this one does
include `correct_answer`. -/
structure QuestionDetail where
  id : Nat
  text : String
  type : String
  options : Option (List String)
  correct_answer : Option String
deriving DecidableEq

/-- Response of `GET /tests/{id}` (routes/tests.py `TestDetailResponse`). -/
structure TestDetailResponse where
  id : Nat
  title : String
  description : Option String
  time_limit : Option Int
  shuffle_questions : Bool
  questions : List QuestionDetail
deriving DecidableEq

/-- `get_test` from routes/tests.py: ownership gate, then the full test
detail including each question's correct_answer. -/
def get_test (test_id user_id : Nat) (db : DB) : Except ApiError TestDetailResponse :=
  match check_creator_permission user_id (some test_id) db with
  | .error e => .error e
  | .ok _ =>
    match findTest db test_id with
    | none => .error .notFound
    | some t =>
      .ok { id := t.id, title := t.title, description := t.description,
            time_limit := t.time_limit, shuffle_questions := t.shuffle_questions,
            questions := (testQuestions db test_id).map (fun q =>
              { id := q.id, text := q.text, type := q.type, options := q.options,
                correct_answer := q.correct_answer }) }

/-- Question payload of `POST /tests` and `PUT /tests/{id}`. -/
structure QuestionReq where
  text : String
  type : String
  options : Option (List String)
  correct_answer : Option String
deriving DecidableEq

/-- Body of `POST /tests` / `PUT /tests/{id}` (routes/tests.py
`TestRequest`). -/
structure TestRequest where
  title : String
  description : Option String
  time_limit : Option Int
  shuffle_questions : Bool
  questions : List QuestionReq
deriving DecidableEq

/-- `json.dumps(options) if options else None`: an absent or empty options
list is stored as SQL NULL. -/
def storeOptions (o : Option (List String)) : Option (List String) :=
  match o with
  | some l => if l.isEmpty then none else some l
  | none => none

/-- The `questions` rows inserted by `create_test` / `update_test`, with
consecutive AUTO_INCREMENT ids starting at `nid`. -/
def insertQuestions (test_id : Nat) : List QuestionReq → Nat → List QuestionRow
  | [], _ => []
  | q :: rest, nid =>
    { id := nid, test_id := test_id, text := q.text, type := q.type,
      options := storeOptions q.options, correct_answer := q.correct_answer }
      :: insertQuestions test_id rest (nid + 1)

/-- `update_test` from routes/tests.py: ownership gate, title-uniqueness
check (400), update of the test row, delete of its questions (the
`answers` rows referencing them go with them by `ON DELETE CASCADE`),
re-insert of the submitted questions.  Inserting a question for a
non-existent test violates the `questions.test_id` foreign key, surfacing
as the 400 integrity error — reachable only through the `test_id = 0`
gate bypass. -/
def update_test (test_id user_id : Nat) (data : TestRequest) (db : DB) :
    Except ApiError DB :=
  match check_creator_permission user_id (some test_id) db with
  | .error e => .error e
  | .ok _ =>
    if db.tests.any (fun t => t.title == data.title && t.id != test_id) then .error .validation
    else if ¬ data.questions.isEmpty ∧ (findTest db test_id).isNone then .error .integrity
    else
      let delIds := (testQuestions db test_id).map (fun q => q.id)
      .ok { db with
        tests := db.tests.map (fun t =>
          if t.id == test_id then
            { t with title := data.title, description := data.description,
                     time_limit := data.time_limit,
                     shuffle_questions := data.shuffle_questions }
          else t),
        questions := db.questions.filter (fun q => q.test_id != test_id)
          ++ insertQuestions test_id data.questions db.next_question_id,
        answers := db.answers.filter (fun a => ¬ delIds.contains a.question_id),
        next_question_id := db.next_question_id + data.questions.length }

/-- `delete_test` from routes/tests.py: ownership gate, then
`DELETE FROM tests WHERE id = %s`, cascading to the test's questions,
attempts, and the answers referencing either. -/
def delete_test (test_id user_id : Nat) (db : DB) : Except ApiError DB :=
  match check_creator_permission user_id (some test_id) db with
  | .error e => .error e
  | .ok _ =>
    let delQIds := (testQuestions db test_id).map (fun q => q.id)
    let delAttIds := (db.attempts.filter (fun a => a.test_id == test_id)).map (fun a => a.id)
    .ok { db with
      tests := db.tests.filter (fun t => t.id != test_id),
      questions := db.questions.filter (fun q => q.test_id != test_id),
      attempts := db.attempts.filter (fun a => a.test_id != test_id),
      answers := db.answers.filter (fun a =>
        !(delQIds.contains a.question_id || delAttIds.contains a.attempt_id)) }

/-- SQL `AVG` composed with the handlers' `or 0`: the mean of the listed
values, or 0 when there are none (AVG of an empty/all-NULL column is NULL,
which `or 0` maps to 0; a genuine average of 0 is also 0). -/
def avgOr0 (l : List ℚ) : ℚ :=
  if l.isEmpty then 0 else l.sum / l.length

/-- Python's `round` at a given value: round-half-to-even. -/
def bankersRound (q : ℚ) : ℤ :=
  let f := ⌊q⌋
  let r := q - f
  if r < 1/2 then f
  else if 1/2 < r then f + 1
  else if Even f then f else f + 1

/-- `round(x, 1)`: round-half-to-even at one decimal place. -/
def round1 (q : ℚ) : ℚ := (bankersRound (q * 10) : ℚ) / 10

/-- One value of the per-question `difficulty` map. -/
structure DifficultyEntry where
  correct_percentage : ℚ
  average_time : ℚ
deriving DecidableEq

/-- Response of `GET /tests/{id}/stats`.  The code keys the difficulty map
by the string `"question_{id}"`; the key is modelled by the id itself. -/
structure StatsResponse where
  average_score : ℚ
  completion_time : ℚ
  difficulty : List (Nat × DifficultyEntry)
deriving DecidableEq

/-- The per-question aggregate of `get_test_stats`: over all `answers`
rows for the question, the percentage graded correct and the average
answer_time (NULL times ignored by AVG, `or 0` when none); `none` when the
question has no answers at all — such questions are omitted from the
difficulty map. -/
def questionDifficulty (db : DB) (qid : Nat) : Option DifficultyEntry :=
  let rows := db.answers.filter (fun r => r.question_id == qid)
  if 0 < rows.length then
    some { correct_percentage := ((rows.countP (fun r => r.is_correct)) : ℚ) / (rows.length : ℚ) * 100,
           average_time := avgOr0 (rows.filterMap (fun r => r.answer_time)) }
  else none

/-- `get_test_stats` from routes/test_execution.py: creator role (403),
inline ownership check reporting 404 for a missing test and for a
creator_id mismatch alike, then the aggregates: average score over the
test's attempts (SQL AVG skips NULL scores; `or 0` turns no data into 0),
average completion seconds over attempts with `end_time`, and the
difficulty map over the test's questions that have at least one answer. -/
def get_test_stats (test_id user_id : Nat) (db : DB) : Except ApiError StatsResponse :=
  match findUser db user_id with
  | none => .error .forbidden
  | some u =>
    if u.role ≠ "creator" then .error .forbidden
    else
      match findTest db test_id with
      | none => .error .notFound
      | some t =>
        if t.creator_id ≠ user_id then .error .notFound
        else
          .ok { average_score := round1 (avgOr0
                  ((db.attempts.filter (fun a => a.test_id == test_id)).filterMap (fun a => a.score))),
                completion_time := round1 (avgOr0
                  ((db.attempts.filter (fun a => a.test_id == test_id)).filterMap (fun a =>
                    a.end_time.map (fun e => (e : ℚ) - (a.start_time : ℚ))))),
                difficulty := (testQuestions db test_id).filterMap
                  (fun q => (questionDifficulty db q.id).map (fun d => (q.id, d))) }

/-- One row of the stats export. -/
structure ExportRow where
  user_id : Nat
  score : Option ℚ
  start_time : Nat
  end_time : Option Nat
  completion_time : ℚ
deriving DecidableEq

/-- `export_stats` from routes/test_execution.py: format restricted to
csv/json/excel (400 before any other check), creator role (403), inline
ownership check (404 for missing test or creator mismatch), then the raw
per-attempt rows; the three formats serialize the same row list, which is
what the model returns. -/
def export_stats (test_id user_id : Nat) (format : String) (db : DB) :
    Except ApiError (List ExportRow) :=
  if ¬ (format = "csv" ∨ format = "json" ∨ format = "excel") then .error .validation
  else
    match findUser db user_id with
    | none => .error .forbidden
    | some u =>
      if u.role ≠ "creator" then .error .forbidden
      else
        match findTest db test_id with
        | none => .error .notFound
        | some t =>
          if t.creator_id ≠ user_id then .error .notFound
          else
            .ok ((db.attempts.filter (fun a => a.test_id == test_id)).map (fun a =>
              { user_id := a.user_id, score := a.score, start_time := a.start_time,
                end_time := a.end_time,
                completion_time := match a.end_time with
                  | some e => (e : ℚ) - (a.start_time : ℚ)
                  | none => 0 }))

/-! ### Sample stores used to instantiate the theorems on concrete data -/

/-- Sample store: participant 1, creator 2, test 1 owned by the creator
with an open question (id 1, correct answer "A") and a multiple-choice
question (id 2, options A/B, correct answer "A"), and an open attempt of
participant 1 on test 1. -/
def dbEx : DB :=
  { users := [
      { id := 1, email := "p@example.com", password_hash := "h1", role := "participant" },
      { id := 2, email := "c@example.com", password_hash := "h2", role := "creator" }],
    tests := [
      { id := 1, title := "T1", description := none, creator_id := 2,
        time_limit := none, shuffle_questions := false }],
    questions := [
      { id := 1, test_id := 1, text := "Q1", type := "open", options := none,
        correct_answer := some "A" },
      { id := 2, test_id := 1, text := "Q2", type := "multiple_choice",
        options := some ["A", "B"], correct_answer := some "A" }],
    attempts := [
      { id := 1, user_id := 1, test_id := 1, score := none, start_time := 0, end_time := none }],
    answers := [],
    next_user_id := 3, next_test_id := 2, next_question_id := 3,
    next_attempt_id := 2, next_answer_id := 1 }

/-- `dbEx` before the participant's attempt was started. -/
def dbStart : DB := { dbEx with attempts := [], next_attempt_id := 1 }

/-- A store whose test 1 has a single question (id 1, correct answer "A")
and an open attempt of participant 1. -/
def dbOne : DB :=
  { dbEx with
    questions := [
      { id := 1, test_id := 1, text := "Q1", type := "open", options := none,
        correct_answer := some "A" }],
    next_question_id := 2 }

/-- A store for the stats aggregates: test 1 (creator 2) has two questions
and zero attempts; the one answer row (for question 1) belongs to an
attempt on the unrelated test 2, so every foreign key is satisfied while
test 1 still has no attempts. -/
def dbStats : DB :=
  { users := [
      { id := 1, email := "p@example.com", password_hash := "h1", role := "participant" },
      { id := 2, email := "c@example.com", password_hash := "h2", role := "creator" }],
    tests := [
      { id := 1, title := "T1", description := none, creator_id := 2,
        time_limit := none, shuffle_questions := false },
      { id := 2, title := "T2", description := none, creator_id := 2,
        time_limit := none, shuffle_questions := false }],
    questions := [
      { id := 1, test_id := 1, text := "Q1", type := "open", options := none,
        correct_answer := some "A" },
      { id := 2, test_id := 1, text := "Q2", type := "open", options := none,
        correct_answer := some "B" }],
    attempts := [
      { id := 1, user_id := 1, test_id := 2, score := some 100, start_time := 0,
        end_time := some 10 }],
    answers := [
      { id := 1, attempt_id := 1, question_id := 1, answer := "A", is_correct := true,
        answer_time := some 2 }],
    next_user_id := 3, next_test_id := 3, next_question_id := 3,
    next_attempt_id := 2, next_answer_id := 2 }

/-- The empty store a fresh deployment starts from. -/
def db0 : DB :=
  { users := [], tests := [], questions := [], attempts := [], answers := [],
    next_user_id := 1, next_test_id := 1, next_question_id := 1,
    next_attempt_id := 1, next_answer_id := 1 }

/-! ### General list lemmas -/

theorem length_le_of_nodup_subset {l₁ l₂ : List Nat} (h₁ : l₁.Nodup)
    (h₂ : ∀ x ∈ l₁, x ∈ l₂) : l₁.length ≤ l₂.length :=
  calc l₁.length = l₁.toFinset.card := (List.toFinset_card_of_nodup h₁).symm
    _ ≤ l₂.toFinset.card := Finset.card_le_card (fun x hx =>
        List.mem_toFinset.mpr (h₂ x (List.mem_toFinset.mp hx)))
    _ ≤ l₂.length := List.toFinset_card_le l₂

theorem one_lt_length_of_two_mem {α : Type _} {l : List α} {a b : α}
    (ha : a ∈ l) (hb : b ∈ l) (hne : a ≠ b) : 1 < l.length := by
  cases l with
  | nil => cases ha
  | cons x xs =>
    rcases List.mem_cons.mp ha with rfl | ha'
    · rcases List.mem_cons.mp hb with rfl | hb'
      · exact absurd rfl hne
      · have := List.length_pos.mpr (List.ne_nil_of_mem hb')
        simp only [List.length_cons]; omega
    · have := List.length_pos.mpr (List.ne_nil_of_mem ha')
      simp only [List.length_cons]; omega

/-! ### Inversion lemmas for the handlers -/

/-- What a successful run of the grading loop guarantees: the score counts
the submitted answers graded correct, and the inserted rows carry, element
by element in submission order, the submitted question_id and answer
together with the computed correctness flag. -/
theorem gradeAnswers_ok {db : DB} {tid aid : Nat} {l : List SubmittedAnswer} {n s : Nat}
    {rows : List AnswerRow} {cvs : List CorrectView}
    (h : gradeAnswers db tid aid l n = .ok (s, rows, cvs)) :
    s = l.countP (fun a => isCorrectSub db a) ∧
    rows.map (fun r => (r.question_id, r.answer, r.is_correct))
      = l.map (fun a => (a.question_id, a.answer, isCorrectSub db a)) ∧
    rows.length = l.length := by
  induction l generalizing n s rows cvs with
  | nil =>
    simp only [gradeAnswers, Except.ok.injEq, Prod.mk.injEq] at h
    obtain ⟨rfl, rfl, rfl⟩ := h
    simp
  | cons a rest ih =>
    simp only [gradeAnswers] at h
    cases hf : db.questions.find? (fun q => q.id == a.question_id) with
    | none => rw [hf] at h; exact absurd h (by simp)
    | some q =>
      rw [hf] at h
      simp only [] at h
      by_cases ht : q.test_id ≠ tid
      · rw [if_pos ht] at h; exact absurd h (by simp)
      · rw [if_neg ht] at h
        cases hg : gradeAnswers db tid aid rest (n + 1) with
        | error e => rw [hg] at h; exact absurd h (by simp)
        | ok v =>
          obtain ⟨s', rows', cvs'⟩ := v
          rw [hg] at h
          simp only [Except.ok.injEq, Prod.mk.injEq] at h
          obtain ⟨hs, hrows, hcvs⟩ := h
          obtain ⟨ihs, ihmap, ihlen⟩ := ih hg
          have hic : isCorrectSub db a = answer_is_correct q a := by
            simp [isCorrectSub, hf]
          subst hs hrows hcvs
          refine ⟨?_, ?_, ?_⟩
          · rw [List.countP_cons, hic, ihs]
            cases hc : answer_is_correct q a <;> simp [hc]
          · simp only [List.map_cons, ihmap, hic]
          · simp [ihlen]

/-- Inversion of a successful `submit_test`: every check the code performs
on the way to the commit, together with the exact response and committed
state. -/
theorem submit_test_ok_inv {test_id user_id : Nat} {ans : List SubmittedAnswer} {now : Nat}
    {db : DB} {resp : SubmitResponse} {db' : DB}
    (h : submit_test test_id user_id ans now db = .ok (resp, db')) :
    ∃ usr att s rows cvs,
      ans.isEmpty = false ∧ ans.all validAnswer = true ∧
      findUser db user_id = some usr ∧ usr.role = "participant" ∧
      (∃ tst, findTest db test_id = some tst) ∧
      openAttempt db user_id test_id = some att ∧
      ans.all (fun a => ((testQuestions db test_id).map (fun q => q.id)).contains a.question_id) = true ∧
      gradeAnswers db test_id att.id ans db.next_answer_id = .ok (s, rows, cvs) ∧
      resp = { score := finalScore s (testQuestions db test_id).length, correct_answers := cvs } ∧
      db' = { db with
        answers := db.answers ++ rows,
        attempts := db.attempts.map (fun a =>
          if a.id == att.id then
            { a with score := some (finalScore s (testQuestions db test_id).length),
                     end_time := some now }
          else a),
        next_answer_id := db.next_answer_id + rows.length } := by
  unfold submit_test at h
  by_cases hemp : ans.isEmpty
  · rw [if_pos hemp] at h; exact absurd h (by simp)
  · rw [if_neg hemp] at h
    by_cases hva : ans.all validAnswer
    · rw [if_neg (not_not_intro hva)] at h
      cases hu : findUser db user_id with
      | none => rw [hu] at h; exact absurd h (by simp)
      | some usr =>
        rw [hu] at h
        simp only [] at h
        by_cases hur : usr.role ≠ "participant"
        · rw [if_pos hur] at h; exact absurd h (by simp)
        · rw [if_neg hur] at h
          cases htst : findTest db test_id with
          | none => rw [htst] at h; exact absurd h (by simp)
          | some tst =>
            rw [htst] at h
            simp only [] at h
            cases hoa : openAttempt db user_id test_id with
            | none => rw [hoa] at h; exact absurd h (by simp)
            | some att =>
              rw [hoa] at h
              simp only [] at h
              by_cases hall : ans.all (fun a => ((testQuestions db test_id).map (fun q => q.id)).contains a.question_id)
              · rw [if_neg (not_not_intro hall)] at h
                cases hg : gradeAnswers db test_id att.id ans db.next_answer_id with
                | error e => rw [hg] at h; exact absurd h (by simp)
                | ok v =>
                  obtain ⟨s, rows, cvs⟩ := v
                  rw [hg] at h
                  simp only [Except.ok.injEq, Prod.mk.injEq] at h
                  obtain ⟨hresp, hdb'⟩ := h
                  exact ⟨usr, att, s, rows, cvs, by simpa using hemp, hva, rfl,
                    not_ne_iff.mp hur, ⟨tst, rfl⟩, rfl, hall, hg, hresp.symm, hdb'.symm⟩
              · rw [if_pos hall] at h; exact absurd h (by simp)
    · rw [if_pos hva] at h; exact absurd h (by simp)

/-- Inversion of a successful `start_test`: the caller is a participant,
the test exists, no attempt for the pair existed, and the new state has
exactly one new attempt row appended. -/
theorem start_test_ok_inv {test_id user_id now : Nat} {rand : Nat → List Nat}
    {db : DB} {resp : StartResponse} {db' : DB}
    (h : start_test test_id user_id now rand db = .ok (resp, db')) :
    ∃ usr tst,
      findUser db user_id = some usr ∧ usr.role = "participant" ∧
      findTest db test_id = some tst ∧
      db.attempts.find? (fun a => a.user_id == user_id && a.test_id == test_id) = none ∧
      resp = { test_id := test_id,
               questions := (if tst.shuffle_questions then
                   permuteIdx (rand (testQuestions db test_id).length) (testQuestions db test_id)
                 else testQuestions db test_id).map toQuestionView } ∧
      db' = { db with attempts := db.attempts ++ [newAttempt db user_id test_id now],
                      next_attempt_id := db.next_attempt_id + 1 } := by
  unfold start_test at h
  cases hu : findUser db user_id with
  | none => rw [hu] at h; exact absurd h (by simp)
  | some usr =>
    rw [hu] at h
    simp only [] at h
    by_cases hur : usr.role ≠ "participant"
    · rw [if_pos hur] at h; exact absurd h (by simp)
    · rw [if_neg hur] at h
      cases htst : findTest db test_id with
      | none => rw [htst] at h; exact absurd h (by simp)
      | some tst =>
        rw [htst] at h
        simp only [] at h
        cases hpa : db.attempts.find? (fun a => a.user_id == user_id && a.test_id == test_id) with
        | some prior => rw [hpa] at h; exact absurd h (by simp)
        | none =>
          rw [hpa] at h
          simp only [] at h
          simp only [Except.ok.injEq, Prod.mk.injEq] at h
          obtain ⟨hresp, hdb'⟩ := h
          exact ⟨usr, tst, rfl, not_ne_iff.mp hur, rfl, rfl, hresp.symm, hdb'.symm⟩

/-! ### Concrete submissions and result states used by witnesses -/

/-- A submission answering question 1 correctly and question 2 wrongly. -/
def ansEx : List SubmittedAnswer := [⟨1, "A", none⟩, ⟨2, "B", some 5⟩]

/-- The response `submit_test` returns for `ansEx` on `dbEx`. -/
def respEx : SubmitResponse :=
  { score := 50, correct_answers := [⟨1, some "A"⟩, ⟨2, some "A"⟩] }

/-- The store after submitting `ansEx` on `dbEx`. -/
def dbExAfter : DB :=
  { dbEx with
    attempts := [{ id := 1, user_id := 1, test_id := 1, score := some 50,
                   start_time := 0, end_time := some 10 }],
    answers := [
      { id := 1, attempt_id := 1, question_id := 1, answer := "A", is_correct := true,
        answer_time := some 0 },
      { id := 2, attempt_id := 1, question_id := 2, answer := "B", is_correct := false,
        answer_time := some 5 }],
    next_answer_id := 3 }

/-- A submission repeating question 1 (answered correctly) twice. -/
def ansDup : List SubmittedAnswer := [⟨1, "A", none⟩, ⟨1, "A", none⟩]

/-- The response `submit_test` returns for `ansDup` on `dbOne`: a score of
200 percent. -/
def respDup : SubmitResponse :=
  { score := 200, correct_answers := [⟨1, some "A"⟩, ⟨1, some "A"⟩] }

/-- The store after submitting `ansDup` on `dbOne`. -/
def dbOneAfter : DB :=
  { dbOne with
    attempts := [{ id := 1, user_id := 1, test_id := 1, score := some 200,
                   start_time := 0, end_time := some 10 }],
    answers := [
      { id := 1, attempt_id := 1, question_id := 1, answer := "A", is_correct := true,
        answer_time := some 0 },
      { id := 2, attempt_id := 1, question_id := 1, answer := "A", is_correct := true,
        answer_time := some 0 }],
    next_answer_id := 3 }

/-! ### Evaluation of the handlers on the concrete inputs -/

/-- Evaluating `submit_test` on `dbEx` with `ansEx`. -/
theorem submit_ansEx_eval :
    submit_test 1 1 ansEx 10 dbEx = .ok (respEx, dbExAfter) := by
  simp +decide [submit_test, findUser, findTest, openAttempt, testQuestions, gradeAnswers,
    validAnswer, answer_is_correct, isCorrectSub, finalScore, dbEx, dbExAfter, ansEx, respEx]
  norm_num

/-- Evaluating `submit_test` on `dbOne` with the duplicate submission. -/
theorem submit_ansDup_eval :
    submit_test 1 1 ansDup 10 dbOne = .ok (respDup, dbOneAfter) := by
  simp +decide [submit_test, findUser, findTest, openAttempt, testQuestions, gradeAnswers,
    validAnswer, answer_is_correct, isCorrectSub, finalScore, dbOne, dbEx, dbOneAfter,
    ansDup, respDup]
  norm_num

/-! ### Claim theorems -/

/-- C1: for every successful submit, the returned score and the score
stored on the caller's attempt equal `finalScore k N` — that is, k/N*100
when the test has N > 0 questions and 0 when N = 0 — where k counts the
submitted answers whose string exactly equals (case-sensitively, without
normalization) the corresponding question's correct_answer. -/
theorem submit_score_correct (test_id user_id : Nat) (ans : List SubmittedAnswer)
    (now : Nat) (db : DB) (resp : SubmitResponse) (db' : DB)
    (h : submit_test test_id user_id ans now db = .ok (resp, db')) :
    resp.score = finalScore (ans.countP (fun a => isCorrectSub db a))
        (testQuestions db test_id).length ∧
    ∃ row ∈ db'.attempts, row.user_id = user_id ∧ row.test_id = test_id ∧
      row.score = some resp.score ∧ row.end_time = some now := by
  obtain ⟨usr, att, s, rows, cvs, hemp, hva, hu, hur, ⟨tst, htst⟩, hoa, hall, hg, hresp, hdb'⟩ :=
    submit_test_ok_inv h
  obtain ⟨hs, hmap, hlen⟩ := gradeAnswers_ok hg
  subst hs hresp hdb'
  refine ⟨rfl, ?_⟩
  have hmem : att ∈ db.attempts := List.mem_of_find?_eq_some hoa
  have hpred := List.find?_some hoa
  simp only [Bool.and_eq_true, beq_iff_eq] at hpred
  refine ⟨{ att with
      score := some (finalScore (List.countP (fun a => isCorrectSub db a) ans)
        (testQuestions db test_id).length),
      end_time := some now }, ?_, hpred.1.1, hpred.1.2, rfl, rfl⟩
  have := List.mem_map_of_mem (f := fun a =>
    if a.id == att.id then
      { a with
        score := some (finalScore (List.countP (fun a => isCorrectSub db a) ans)
          (testQuestions db test_id).length),
        end_time := some now }
    else a) hmem
  simpa using this

/-- Witness for `submit_score_correct`: submitting one correct and one
wrong answer on the two-question test of `dbEx` scores 50 percent,
returned and stored. -/
theorem submit_score_correct_witness :
    submit_test 1 1 ansEx 10 dbEx = .ok (respEx, dbExAfter) ∧
    (respEx.score = finalScore (ansEx.countP (fun a => isCorrectSub dbEx a))
        (testQuestions dbEx 1).length ∧
     ∃ row ∈ dbExAfter.attempts, row.user_id = 1 ∧ row.test_id = 1 ∧
       row.score = some respEx.score ∧ row.end_time = some 10) :=
  ⟨submit_ansEx_eval, submit_score_correct 1 1 ansEx 10 dbEx respEx dbExAfter submit_ansEx_eval⟩

/-- C10: a successful submit inserts exactly one `answers` row per element
of the submitted list, in submission order and without deduplication —
the stored question_id/answer/correctness projections are the submitted
list's projections — and the score counts every matching element,
duplicates included. -/
theorem submit_no_dedup (test_id user_id : Nat) (ans : List SubmittedAnswer)
    (now : Nat) (db : DB) (resp : SubmitResponse) (db' : DB)
    (h : submit_test test_id user_id ans now db = .ok (resp, db')) :
    db'.answers.map (fun r => (r.question_id, r.answer, r.is_correct))
      = db.answers.map (fun r => (r.question_id, r.answer, r.is_correct))
        ++ ans.map (fun a => (a.question_id, a.answer, isCorrectSub db a)) ∧
    db'.answers.length = db.answers.length + ans.length ∧
    resp.score = finalScore (ans.countP (fun a => isCorrectSub db a))
        (testQuestions db test_id).length := by
  obtain ⟨usr, att, s, rows, cvs, hemp, hva, hu, hur, ⟨tst, htst⟩, hoa, hall, hg, hresp, hdb'⟩ :=
    submit_test_ok_inv h
  obtain ⟨hs, hmap, hlen⟩ := gradeAnswers_ok hg
  subst hs hresp hdb'
  refine ⟨?_, ?_, rfl⟩
  · simpa [List.map_append] using hmap
  · simpa [List.length_append] using hlen

/-- Witness for `submit_no_dedup`: submitting question 1 twice on the
one-question test of `dbOne` inserts two answer rows, both graded
correct, and counts both towards the score. -/
theorem submit_no_dedup_witness :
    submit_test 1 1 ansDup 10 dbOne = .ok (respDup, dbOneAfter) ∧
    (dbOneAfter.answers.map (fun r => (r.question_id, r.answer, r.is_correct))
      = dbOne.answers.map (fun r => (r.question_id, r.answer, r.is_correct))
        ++ ansDup.map (fun a => (a.question_id, a.answer, isCorrectSub dbOne a)) ∧
     dbOneAfter.answers.length = dbOne.answers.length + ansDup.length ∧
     respDup.score = finalScore (ansDup.countP (fun a => isCorrectSub dbOne a))
        (testQuestions dbOne 1).length) :=
  ⟨submit_ansDup_eval, submit_no_dedup 1 1 ansDup 10 dbOne respDup dbOneAfter submit_ansDup_eval⟩

/-- C2 counterexample: on the one-question test of `dbOne`, submitting the
correct answer to question 1 twice succeeds and yields the score 200 —
outside [0, 100] — so a successful submit with repeated question_ids does
not always yield a percentage in range. -/
theorem submit_duplicate_score_200 :
    submit_test 1 1 ansDup 10 dbOne = .ok (respDup, dbOneAfter) ∧
    respDup.score = 200 ∧ ¬ respDup.score ≤ 100 :=
  ⟨submit_ansDup_eval, rfl, by norm_num [respDup]⟩

/-- C2 (amended): a successful submit whose answers list contains no
repeated question_id yields a score in [0, 100], stored on the attempt;
with repeated question_ids the count of matching elements can exceed the
test's question count and the stored score can exceed 100. -/
theorem submit_score_in_range (test_id user_id : Nat) (ans : List SubmittedAnswer)
    (now : Nat) (db : DB) (resp : SubmitResponse) (db' : DB)
    (hnd : (ans.map (fun a => a.question_id)).Nodup)
    (h : submit_test test_id user_id ans now db = .ok (resp, db')) :
    0 ≤ resp.score ∧ resp.score ≤ 100 ∧
    ∃ row ∈ db'.attempts, row.score = some resp.score := by
  obtain ⟨usr, att, s, rows, cvs, hemp, hva, hu, hur, ⟨tst, htst⟩, hoa, hall, hg, hresp, hdb'⟩ :=
    submit_test_ok_inv h
  obtain ⟨hs, hmap, hlen⟩ := gradeAnswers_ok hg
  subst hs hresp hdb'
  have hsub : ∀ x ∈ ans.map (fun a => a.question_id),
      x ∈ (testQuestions db test_id).map (fun q => q.id) := by
    intro x hx
    obtain ⟨a, ha, rfl⟩ := List.mem_map.mp hx
    have hc := (List.all_eq_true.mp hall) a ha
    simpa using hc
  have hlen2 : ans.length ≤ (testQuestions db test_id).length := by
    have := length_le_of_nodup_subset hnd hsub
    simpa using this
  have hkN : ans.countP (fun a => isCorrectSub db a) ≤ (testQuestions db test_id).length :=
    le_trans (ans.countP_le_length _) hlen2
  have hNpos : 0 < (testQuestions db test_id).length := by
    cases hansn : ans with
    | nil => rw [hansn] at hemp; simp at hemp
    | cons a rest =>
      have hmm := hsub a.question_id (by rw [hansn]; simp)
      have hne : (testQuestions db test_id).map (fun q => q.id) ≠ [] :=
        List.ne_nil_of_mem hmm
      simpa using List.length_pos.mpr hne
  have hform : finalScore (ans.countP (fun a => isCorrectSub db a))
      (testQuestions db test_id).length
      = ((ans.countP (fun a => isCorrectSub db a) : ℚ) / ((testQuestions db test_id).length : ℚ)) * 100 := by
    rw [finalScore, if_pos hNpos]
  refine ⟨?_, ?_, ?_⟩
  · show (0 : ℚ) ≤ finalScore _ _
    rw [hform]; positivity
  · show finalScore _ _ ≤ (100 : ℚ)
    rw [hform, div_mul_eq_mul_div, div_le_iff₀ (by exact_mod_cast hNpos)]
    have hq : ((ans.countP (fun a => isCorrectSub db a) : ℚ))
        ≤ ((testQuestions db test_id).length : ℚ) := by exact_mod_cast hkN
    nlinarith
  · have hmem : att ∈ db.attempts := List.mem_of_find?_eq_some hoa
    refine ⟨{ att with
        score := some (finalScore (List.countP (fun a => isCorrectSub db a) ans)
          (testQuestions db test_id).length),
        end_time := some now }, ?_, rfl⟩
    have := List.mem_map_of_mem (f := fun a =>
      if a.id == att.id then
        { a with
          score := some (finalScore (List.countP (fun a => isCorrectSub db a) ans)
            (testQuestions db test_id).length),
          end_time := some now }
      else a) hmem
    simpa using this

/-- Witness for `submit_score_in_range`: the duplicate-free submission
`ansEx` on `dbEx` yields the in-range stored score 50. -/
theorem submit_score_in_range_witness :
    ((ansEx.map (fun a => a.question_id)).Nodup ∧
     submit_test 1 1 ansEx 10 dbEx = .ok (respEx, dbExAfter)) ∧
    (0 ≤ respEx.score ∧ respEx.score ≤ 100 ∧
     ∃ row ∈ dbExAfter.attempts, row.score = some respEx.score) :=
  ⟨⟨by decide, submit_ansEx_eval⟩,
   submit_score_in_range 1 1 ansEx 10 dbEx respEx dbExAfter (by decide) submit_ansEx_eval⟩

/-- The response `start_test` returns on `dbStart`. -/
def startRespEx : StartResponse :=
  { test_id := 1,
    questions := [⟨1, "Q1", "open", none⟩, ⟨2, "Q2", "multiple_choice", some ["A", "B"]⟩] }

/-- Evaluating `start_test` on `dbStart`: starting test 1 as participant 1
at time 0 inserts the open attempt and produces exactly `dbEx`. -/
theorem start_ex_eval :
    start_test 1 1 0 (fun _ => []) dbStart = .ok (startRespEx, dbEx) := by
  simp +decide [start_test, findUser, findTest, testQuestions, newAttempt, toQuestionView,
    dbStart, dbEx, startRespEx]

/-- C3: once a start-test call for (user, test) has succeeded, a second
start-test call for the same pair — at any later time and with any
shuffle outcome — fails with Forbidden; the state after the first call
holds exactly one new attempt row, and the Forbidden result commits
nothing, so the attempt set is unchanged by the second call. -/
theorem start_test_refuses_second (test_id user_id now now2 : Nat)
    (rand rand2 : Nat → List Nat) (db : DB) (resp : StartResponse) (db' : DB)
    (h : start_test test_id user_id now rand db = .ok (resp, db')) :
    start_test test_id user_id now2 rand2 db' = .error .forbidden ∧
    db'.attempts = db.attempts ++ [newAttempt db user_id test_id now] := by
  obtain ⟨usr, tst, hu, hur, htst, hpa, hresp, hdb'⟩ := start_test_ok_inv h
  have h1 : findUser db' user_id = some usr := by rw [hdb']; exact hu
  have h2 : findTest db' test_id = some tst := by rw [hdb']; exact htst
  have h3 : db'.attempts.find? (fun a => a.user_id == user_id && a.test_id == test_id)
      = some (newAttempt db user_id test_id now) := by
    rw [hdb']
    show (db.attempts ++ [newAttempt db user_id test_id now]).find? _ = _
    rw [List.find?_append, hpa]
    simp [newAttempt]
  refine ⟨?_, by rw [hdb']⟩
  unfold start_test
  rw [h1]; simp only []
  rw [if_neg (not_ne_iff.mpr hur)]
  rw [h2]; simp only []
  rw [h3]

/-- Witness for `start_test_refuses_second`: after participant 1 starts
test 1 on `dbStart`, a second start is Forbidden and the attempt table
grew by exactly the one new row. -/
theorem start_test_refuses_second_witness :
    start_test 1 1 0 (fun _ => []) dbStart = .ok (startRespEx, dbEx) ∧
    (start_test 1 1 5 (fun _ => [0, 1]) dbEx = .error .forbidden ∧
     dbEx.attempts = dbStart.attempts ++ [newAttempt dbStart 1 1 0]) :=
  ⟨start_ex_eval,
   start_test_refuses_second 1 1 0 5 (fun _ => []) (fun _ => [0, 1]) dbStart startRespEx dbEx
     start_ex_eval⟩

/-- A submission naming question 99, which belongs to no test of `dbEx`. -/
def ansBad : List SubmittedAnswer := [⟨99, "A", none⟩]

/-- C4: submit-test with an empty answers list fails ValidationError
unconditionally (it is the handler's first check); and for a caller who
passes the role, test and open-attempt checks, a submission containing
any question_id outside the target test's question set fails
ValidationError.  A ValidationError result commits nothing — in the
transactional model an `.error` carries no state, so zero Answer rows and
no score/end_time update are written. -/
theorem submit_validation_rejects (test_id user_id : Nat) (ans : List SubmittedAnswer)
    (now : Nat) (db : DB) :
    submit_test test_id user_id [] now db = .error .validation ∧
    ((∃ usr, findUser db user_id = some usr ∧ usr.role = "participant") →
     (∃ tst, findTest db test_id = some tst) →
     (∃ att, openAttempt db user_id test_id = some att) →
     (∃ a ∈ ans, a.question_id ∉ (testQuestions db test_id).map (fun q => q.id)) →
     submit_test test_id user_id ans now db = .error .validation) := by
  constructor
  · rfl
  · rintro ⟨usr, hu, hur⟩ ⟨tst, htst⟩ ⟨att, hoa⟩ ⟨a, ha, hnotin⟩
    unfold submit_test
    by_cases hemp : ans.isEmpty
    · rw [if_pos hemp]
    · rw [if_neg hemp]
      by_cases hva : ans.all validAnswer
      · rw [if_neg (not_not_intro hva)]
        rw [hu]; simp only []
        rw [if_neg (not_ne_iff.mpr hur)]
        rw [htst]; simp only []
        rw [hoa]; simp only []
        rw [if_pos ?vcond]
        case vcond =>
          intro hall
          exact hnotin (by simpa using (List.all_eq_true.mp hall) a ha)
      · rw [if_pos hva]

/-- Witness for `submit_validation_rejects`: on `dbEx`, the empty
submission and the submission naming the foreign question 99 both fail
ValidationError. -/
theorem submit_validation_rejects_witness :
    submit_test 1 1 [] 10 dbEx = .error .validation ∧
    submit_test 1 1 ansBad 10 dbEx = .error .validation :=
  ⟨(submit_validation_rejects 1 1 ansBad 10 dbEx).1,
   (submit_validation_rejects 1 1 ansBad 10 dbEx).2
     ⟨⟨1, "p@example.com", "h1", "participant"⟩, by decide, rfl⟩
     ⟨⟨1, "T1", none, 2, none, false⟩, by decide⟩
     ⟨⟨1, 1, 1, none, 0, none⟩, by decide⟩
     ⟨⟨99, "A", none⟩, by decide, by decide⟩⟩

/-- C7: a submit by a caller with no open attempt (end_time null) for the
target test — never started, or already submitted — fails with
Forbidden, provided the request gets that far (non-empty schema-valid
answers, participant role, existing test); and a successful submit closes
the caller's open attempt by setting its end_time, so — when the store
held at most one open attempt for the pair, as start-test enforces — any
repeated submit by the same caller for the same test fails Forbidden. -/
theorem submit_requires_open_attempt (test_id user_id : Nat) (ans : List SubmittedAnswer)
    (now : Nat) (db : DB) :
    (ans.isEmpty = false → ans.all validAnswer = true →
     (∃ usr, findUser db user_id = some usr ∧ usr.role = "participant") →
     (∃ tst, findTest db test_id = some tst) →
     openAttempt db user_id test_id = none →
     submit_test test_id user_id ans now db = .error .forbidden) ∧
    (∀ resp db', submit_test test_id user_id ans now db = .ok (resp, db') →
     (db.attempts.filter
        (fun a => a.user_id == user_id && a.test_id == test_id && a.end_time.isNone)).length ≤ 1 →
     ∀ (ans₂ : List SubmittedAnswer) (now₂ : Nat),
       ans₂.isEmpty = false → ans₂.all validAnswer = true →
       submit_test test_id user_id ans₂ now₂ db' = .error .forbidden) := by
  constructor
  · intro hemp hva ⟨usr, hu, hur⟩ ⟨tst, htst⟩ hoa
    unfold submit_test
    rw [if_neg (by simp [hemp])]
    rw [if_neg (not_not_intro hva)]
    rw [hu]; simp only []
    rw [if_neg (not_ne_iff.mpr hur)]
    rw [htst]; simp only []
    rw [hoa]
  · intro resp db' hok hle ans₂ now₂ hemp₂ hva₂
    obtain ⟨usr, att, s, rows, cvs, hemp, hva, hu, hur, ⟨tst, htst⟩, hoa, hall, hg, hresp, hdb'⟩ :=
      submit_test_ok_inv hok
    have hno : openAttempt db' user_id test_id = none := by
      rw [hdb']
      unfold openAttempt
      show List.find? _ (db.attempts.map _) = none
      rw [List.find?_eq_none]
      rintro x hx hpx
      obtain ⟨a, ha, rfl⟩ := List.mem_map.mp hx
      by_cases hid : a.id == att.id
      · rw [if_pos hid] at hpx
        simp at hpx
      · rw [if_neg hid] at hpx
        have hamem : a ∈ db.attempts.filter
            (fun a => a.user_id == user_id && a.test_id == test_id && a.end_time.isNone) :=
          List.mem_filter.mpr ⟨ha, hpx⟩
        have hoa' : db.attempts.find?
            (fun a => a.user_id == user_id && a.test_id == test_id && a.end_time.isNone)
            = some att := hoa
        have hattmem : att ∈ db.attempts.filter
            (fun a => a.user_id == user_id && a.test_id == test_id && a.end_time.isNone) :=
          List.mem_filter.mpr ⟨List.mem_of_find?_eq_some hoa',
            List.find?_some
              (p := fun (a : AttemptRow) =>
                a.user_id == user_id && a.test_id == test_id && a.end_time.isNone)
              hoa'⟩
        have hne : a ≠ att := fun hEq => hid (by subst hEq; simp)
        have := one_lt_length_of_two_mem hamem hattmem hne
        omega
    have hu' : findUser db' user_id = some usr := by rw [hdb']; exact hu
    have ht' : findTest db' test_id = some tst := by rw [hdb']; exact htst
    unfold submit_test
    rw [if_neg (by simp [hemp₂])]
    rw [if_neg (not_not_intro hva₂)]
    rw [hu']; simp only []
    rw [if_neg (not_ne_iff.mpr hur)]
    rw [ht']; simp only []
    rw [hno]

/-- Witness for `submit_requires_open_attempt`: on `dbStart` (test never
started) the submit is Forbidden, and after the successful submit on
`dbEx` a repeated submit is Forbidden. -/
theorem submit_requires_open_attempt_witness :
    submit_test 1 1 ansEx 10 dbStart = .error .forbidden ∧
    submit_test 1 1 ansEx 11 dbExAfter = .error .forbidden :=
  ⟨(submit_requires_open_attempt 1 1 ansEx 10 dbStart).1 (by decide) (by decide)
     ⟨⟨1, "p@example.com", "h1", "participant"⟩, by decide, rfl⟩
     ⟨⟨1, "T1", none, 2, none, false⟩, by decide⟩ (by decide),
   (submit_requires_open_attempt 1 1 ansEx 10 dbEx).2 respEx dbExAfter submit_ansEx_eval
     (by decide) ansEx 11 (by decide) (by decide)⟩

/-! ### Forall₂ transport lemmas for the start-test response -/

theorem forall₂_filter_test {R : QuestionRow → QuestionRow → Prop} {l₁ l₂ : List QuestionRow}
    (hR : ∀ a b, R a b → a.test_id = b.test_id) (h : List.Forall₂ R l₁ l₂) (t : Nat) :
    List.Forall₂ R (l₁.filter (fun q => q.test_id == t)) (l₂.filter (fun q => q.test_id == t)) := by
  induction h with
  | nil => exact List.Forall₂.nil
  | cons hab hl ih =>
    rename_i a b l₁' l₂'
    by_cases hat : (a.test_id == t) = true
    · have hbt : (b.test_id == t) = true := by
        rw [show b.test_id = a.test_id from (hR a b hab).symm]; exact hat
      simp only [List.filter_cons, hat, hbt, if_true]
      exact List.Forall₂.cons hab ih
    · have hbt : ¬ (b.test_id == t) = true := by
        rw [show b.test_id = a.test_id from (hR a b hab).symm]; exact hat
      simp only [List.filter_cons, hat, hbt, if_false]
      exact ih

theorem forall₂_view_map {l₁ l₂ : List QuestionRow}
    (h : List.Forall₂ (fun q₁ q₂ => toQuestionView q₁ = toQuestionView q₂) l₁ l₂) :
    l₁.map toQuestionView = l₂.map toQuestionView := by
  induction h with
  | nil => rfl
  | cons hab hl ih => simp [hab, ih]

theorem forall₂_view_permute {l₁ l₂ : List QuestionRow} (idxs : List Nat)
    (h : List.Forall₂ (fun q₁ q₂ => toQuestionView q₁ = toQuestionView q₂) l₁ l₂) :
    (permuteIdx idxs l₁).map toQuestionView = (permuteIdx idxs l₂).map toQuestionView := by
  have hlen := h.length_eq
  induction idxs with
  | nil => rfl
  | cons i rest ih =>
    unfold permuteIdx at ih ⊢
    simp only [List.filterMap_cons]
    by_cases hi : i < l₁.length
    · rw [List.getElem?_eq_getElem hi, List.getElem?_eq_getElem (hlen ▸ hi)]
      have hrel := (List.forall₂_iff_get.mp h).2 i hi (hlen ▸ hi)
      simp only [List.map_cons, ih]
      simpa using hrel
    · rw [List.getElem?_eq_none (le_of_not_lt hi),
          List.getElem?_eq_none (hlen ▸ le_of_not_lt hi)]
      exact ih

/-- `dbStart` with every question's correct_answer replaced (question 1
gets "Z", question 2 gets NULL) — all other data identical. -/
def dbStart2 : DB :=
  { dbStart with
    questions := [
      { id := 1, test_id := 1, text := "Q1", type := "open", options := none,
        correct_answer := some "Z" },
      { id := 2, test_id := 1, text := "Q2", type := "multiple_choice",
        options := some ["A", "B"], correct_answer := none }] }

/-- C5: a successful start-test response exposes for each question only
id, text, type and options — every response entry is the
`toQuestionView` projection of one of the test's question rows, with
options null for open questions and non-null for multiple_choice ones
(under the data-model invariant that stored options are present iff the
question is multiple_choice) — and the response never contains
correct_answer: it is unchanged under any change of the stored
correct_answer values (same store otherwise, same shuffle outcome). -/
theorem start_test_hides_correct_answers (test_id user_id now : Nat) (rand : Nat → List Nat)
    (db : DB) (resp : StartResponse) (db' : DB)
    (hwf : ∀ q ∈ db.questions, (q.type = "open" → q.options = none) ∧
           (q.type = "multiple_choice" → q.options ≠ none))
    (h : start_test test_id user_id now rand db = .ok (resp, db')) :
    (∀ v ∈ resp.questions, ∃ q ∈ db.questions, q.test_id = test_id ∧
        v = toQuestionView q ∧ (q.type = "open" → v.options = none) ∧
        (q.type = "multiple_choice" → v.options ≠ none)) ∧
    (∀ db₂ : DB, db₂.users = db.users → db₂.tests = db.tests →
        db₂.attempts = db.attempts →
        List.Forall₂ (fun q₁ q₂ => toQuestionView q₁ = toQuestionView q₂ ∧ q₁.test_id = q₂.test_id)
          db.questions db₂.questions →
        ∃ db₂', start_test test_id user_id now rand db₂ = .ok (resp, db₂')) := by
  obtain ⟨usr, tst, hu, hur, htst, hpa, hresp, hdb'⟩ := start_test_ok_inv h
  subst hresp
  constructor
  · intro v hv
    obtain ⟨q, hq, rfl⟩ := List.mem_map.mp hv
    have hqmem : q ∈ testQuestions db test_id := by
      by_cases hs : tst.shuffle_questions
      · rw [if_pos hs] at hq
        unfold permuteIdx at hq
        obtain ⟨i, _, hgi⟩ := List.mem_filterMap.mp hq
        obtain ⟨hi, rfl⟩ := List.getElem?_eq_some.mp hgi
        exact List.getElem_mem hi
      · rw [if_neg hs] at hq; exact hq
    have hq2 := List.mem_filter.mp hqmem
    have hqdb : q ∈ db.questions := hq2.1
    refine ⟨q, hqdb, by simpa using hq2.2, rfl, ?_, ?_⟩
    · intro hopen; simpa [toQuestionView] using (hwf q hqdb).1 hopen
    · intro hmc; simpa [toQuestionView] using (hwf q hqdb).2 hmc
  · intro db₂ hus hts hats hrel
    have hfilter : List.Forall₂
        (fun q₁ q₂ => toQuestionView q₁ = toQuestionView q₂ ∧ q₁.test_id = q₂.test_id)
        (testQuestions db test_id) (testQuestions db₂ test_id) :=
      forall₂_filter_test (fun a b hab => hab.2) hrel test_id
    have hviewf : List.Forall₂ (fun q₁ q₂ => toQuestionView q₁ = toQuestionView q₂)
        (testQuestions db test_id) (testQuestions db₂ test_id) :=
      List.Forall₂.imp (fun a b hab => hab.1) hfilter
    have hlenq : (testQuestions db test_id).length = (testQuestions db₂ test_id).length :=
      hfilter.length_eq
    have hu₂ : findUser db₂ user_id = some usr := by unfold findUser; rw [hus]; exact hu
    have ht₂ : findTest db₂ test_id = some tst := by unfold findTest; rw [hts]; exact htst
    have hpa₂ : db₂.attempts.find? (fun a => a.user_id == user_id && a.test_id == test_id)
        = none := by rw [hats]; exact hpa
    have hqs : (if tst.shuffle_questions then
          permuteIdx (rand (testQuestions db₂ test_id).length) (testQuestions db₂ test_id)
        else testQuestions db₂ test_id).map toQuestionView
        = (if tst.shuffle_questions then
          permuteIdx (rand (testQuestions db test_id).length) (testQuestions db test_id)
        else testQuestions db test_id).map toQuestionView := by
      by_cases hs : tst.shuffle_questions
      · rw [if_pos hs, if_pos hs, ← hlenq]
        exact (forall₂_view_permute (rand (testQuestions db test_id).length) hviewf).symm
      · rw [if_neg hs, if_neg hs]
        exact (forall₂_view_map hviewf).symm
    refine ⟨{ db₂ with
      attempts := db₂.attempts ++ [newAttempt db₂ user_id test_id now],
      next_attempt_id := db₂.next_attempt_id + 1 }, ?_⟩
    unfold start_test
    rw [hu₂]; simp only []
    rw [if_neg (not_ne_iff.mpr hur)]
    rw [ht₂]; simp only []
    rw [hpa₂]; simp only []
    rw [hqs]

/-- Witness for `start_test_hides_correct_answers`: the `dbStart` response
projects both questions (open one with null options, multiple_choice one
with its list), and replacing both correct_answers (`dbStart2`) leaves
the response identical. -/
theorem start_test_hides_correct_answers_witness :
    (∀ v ∈ startRespEx.questions, ∃ q ∈ dbStart.questions, q.test_id = 1 ∧
        v = toQuestionView q ∧ (q.type = "open" → v.options = none) ∧
        (q.type = "multiple_choice" → v.options ≠ none)) ∧
    (∃ db₂', start_test 1 1 0 (fun _ => []) dbStart2 = .ok (startRespEx, db₂')) := by
  have h := start_test_hides_correct_answers 1 1 0 (fun _ => []) dbStart startRespEx dbEx
    (by decide) start_ex_eval
  exact ⟨h.1, h.2 dbStart2 rfl rfl rfl
    (List.Forall₂.cons ⟨rfl, rfl⟩ (List.Forall₂.cons ⟨rfl, rfl⟩ List.Forall₂.nil))⟩

/-- The register request of C6's failing input: malformed email, password
shorter than 6 characters, role outside {participant, creator}. -/
def regBad : RegisterRequest := { email := "invalid-email", password := "abc", role := "admin" }

/-- The store after `register` accepts `regBad` on the empty store. -/
def dbBadUser : DB :=
  { db0 with
    users := [{ id := 1, email := "invalid-email", password_hash := "abc", role := "admin" }],
    next_user_id := 2 }

/-- The users row `register` inserts: the AUTO_INCREMENT id `n`, the
submitted email and role verbatim, and the hashed password. -/
def insertedUser (n : Nat) (hashpw : String → String) (data : RegisterRequest) : UserRow :=
  { id := n, email := data.email, password_hash := hashpw data.password, role := data.role }

/-- C6 (code bug): `register` performs none of the claimed field
validation — on a fresh store it accepts a malformed email, a password of
length 3 < 6 and the unknown role "admin", inserting the user verbatim and
returning the new id, where the claim (and the unused `UserSchema`
validators in schemas.py) require ValidationError.  Only the
duplicate-email check exists, proved in the second conjunct. -/
theorem register_skips_field_validation :
    (register (fun s => s) regBad db0 = .ok (1, dbBadUser) ∧
     regBad.password.length < 6 ∧
     ¬ (regBad.role = "participant" ∨ regBad.role = "creator")) ∧
    (∀ hashpw data, register hashpw data dbBadUser
        = if data.email = "invalid-email" then .error .validation
          else .ok (2, { dbBadUser with
            users := dbBadUser.users ++ [insertedUser 2 hashpw data],
            next_user_id := 3 })) := by
  refine ⟨⟨rfl, by decide, by decide⟩, ?_⟩
  intro hashpw data
  unfold register
  by_cases he : data.email = "invalid-email"
  · rw [if_pos he]
    have : dbBadUser.users.find? (fun u => u.email == data.email)
        = some { id := 1, email := "invalid-email", password_hash := "abc", role := "admin" } := by
      simp [dbBadUser, db0, he]
    rw [this]
  · rw [if_neg he]
    have : dbBadUser.users.find? (fun u => u.email == data.email) = none := by
      simp [dbBadUser, db0]
      exact fun hEq => absurd hEq.symm he
    rw [this]
    rfl

/-- The difficulty-map value `get_test_stats` computes for a question:
correctness percentage and average answer time over its answer rows. -/
def diffEntry (db : DB) (qid : Nat) : DifficultyEntry :=
  { correct_percentage :=
      ((List.countP (fun r => r.is_correct) (db.answers.filter (fun r => r.question_id == qid))) : ℚ)
        / ((db.answers.filter (fun r => r.question_id == qid)).length : ℚ) * 100,
    average_time :=
      avgOr0 ((db.answers.filter (fun r => r.question_id == qid)).filterMap
        (fun r => r.answer_time)) }

/-- The stats response for test 1 of `dbStats`. -/
def statsRespEx : StatsResponse :=
  { average_score := 0, completion_time := 0,
    difficulty := [(1, { correct_percentage := 100, average_time := 2 })] }

/-- Evaluating `get_test_stats` for creator 2 on `dbStats`: zero attempts
average to 0, and only question 1 (one answer) appears in the map. -/
theorem stats_ex_eval : get_test_stats 1 2 dbStats = .ok statsRespEx := by
  simp +decide [get_test_stats, findUser, findTest, testQuestions, questionDifficulty,
    avgOr0, round1, bankersRound, dbStats, statsRespEx]

/-- C8: for every successful stats request, the average score over zero
attempts is 0 (not an error), and the difficulty map holds an entry —
keyed by the question's id — for exactly those of the test's questions
that have at least one recorded Answer row. -/
theorem stats_zero_avg_and_difficulty_keys (test_id user_id : Nat) (db : DB)
    (resp : StatsResponse) (h : get_test_stats test_id user_id db = .ok resp) :
    (db.attempts.filter (fun a => a.test_id == test_id) = [] → resp.average_score = 0) ∧
    (∀ qid, (∃ d, (qid, d) ∈ resp.difficulty) ↔
      ∃ q ∈ db.questions, q.test_id = test_id ∧ q.id = qid ∧
        db.answers.filter (fun r => r.question_id == qid) ≠ []) := by
  unfold get_test_stats at h
  cases hu : findUser db user_id with
  | none => rw [hu] at h; exact absurd h (by simp)
  | some usr =>
    rw [hu] at h; simp only [] at h
    by_cases hur : usr.role ≠ "creator"
    · rw [if_pos hur] at h; exact absurd h (by simp)
    · rw [if_neg hur] at h
      cases htst : findTest db test_id with
      | none => rw [htst] at h; exact absurd h (by simp)
      | some tst =>
        rw [htst] at h; simp only [] at h
        by_cases hown : tst.creator_id ≠ user_id
        · rw [if_pos hown] at h; exact absurd h (by simp)
        · rw [if_neg hown] at h
          simp only [Except.ok.injEq] at h
          subst h
          constructor
          · intro hatts
            show round1 (avgOr0 _) = 0
            rw [hatts]
            norm_num [avgOr0, round1, bankersRound]
          · intro qid
            constructor
            · rintro ⟨d, hd⟩
              obtain ⟨q, hq, hmap⟩ := List.mem_filterMap.mp hd
              obtain ⟨d', hd', heq⟩ := Option.map_eq_some'.mp hmap
              have hqid : q.id = qid := by
                have := congrArg Prod.fst heq
                simpa using this
              have hq2 := List.mem_filter.mp hq
              refine ⟨q, hq2.1, by simpa using hq2.2, hqid, ?_⟩
              rw [questionDifficulty] at hd'
              by_cases hlen : 0 < (db.answers.filter (fun r => r.question_id == q.id)).length
              · subst hqid
                intro hnil
                rw [hnil] at hlen
                simp at hlen
              · rw [if_neg hlen] at hd'
                exact absurd hd' (by simp)
            · rintro ⟨q, hq, hqt, hqid, hne⟩
              subst hqid
              have hlen : 0 < (db.answers.filter (fun r => r.question_id == q.id)).length :=
                List.length_pos.mpr hne
              refine ⟨diffEntry db q.id,
                List.mem_filterMap.mpr ⟨q, List.mem_filter.mpr ⟨hq, by simp [hqt]⟩, ?_⟩⟩
              rw [questionDifficulty]
              simp only [if_pos hlen, Option.map_some', diffEntry]

/-- Witness for `stats_zero_avg_and_difficulty_keys` on `dbStats`:
average over test 1's zero attempts is 0, question 1 (one answer) is
keyed in the map, question 2 (no answers) is omitted. -/
theorem stats_zero_avg_and_difficulty_keys_witness :
    get_test_stats 1 2 dbStats = .ok statsRespEx ∧
    ((dbStats.attempts.filter (fun a => a.test_id == 1) = [] →
        statsRespEx.average_score = 0) ∧
     (∀ qid, (∃ d, (qid, d) ∈ statsRespEx.difficulty) ↔
        ∃ q ∈ dbStats.questions, q.test_id = 1 ∧ q.id = qid ∧
          dbStats.answers.filter (fun r => r.question_id == qid) ≠ [])) :=
  ⟨stats_ex_eval, stats_zero_avg_and_difficulty_keys 1 2 dbStats statsRespEx stats_ex_eval⟩

/-! ### C9: the ownership gate -/

theorem check_creator_permission_notFound {user_id t : Nat} {db : DB}
    (hnz : t ≠ 0)
    (husr : ∃ usr, findUser db user_id = some usr ∧ usr.role = "creator")
    (hown : ∀ tst ∈ db.tests, tst.id = t → tst.creator_id ≠ user_id) :
    check_creator_permission user_id (some t) db = .error .notFound := by
  obtain ⟨usr, hu, hur⟩ := husr
  unfold check_creator_permission
  rw [hu]; simp only []
  rw [if_neg (not_ne_iff.mpr hur)]
  rw [if_neg hnz]
  cases htst : findTest db t with
  | none => rfl
  | some tst =>
    simp only []
    have htst' : db.tests.find? (fun x => x.id == t) = some tst := htst
    have h1 : tst.id = t := by simpa using List.find?_some htst'
    rw [if_pos (hown tst (List.mem_of_find?_eq_some htst') h1)]

/-- C9 (amended): for every owner-gated test operation (detail, update,
delete, stats, export) called by a creator-role user with a NONZERO test
id, a missing test and an existing test with a different creator_id both
fail with NotFound (never Forbidden), so a non-owner cannot distinguish a
test they don't own from one that doesn't exist.  At test id 0 —
unreachable for real rows since AUTO_INCREMENT starts at 1 — detail,
update and delete skip the ownership gate (`if test_id:` is false for 0);
see the counterexample theorem. -/
theorem owner_gate_reports_not_found (test_id user_id : Nat) (db : DB) (data : TestRequest)
    (hnz : test_id ≠ 0)
    (husr : ∃ usr, findUser db user_id = some usr ∧ usr.role = "creator")
    (hown : ∀ tst ∈ db.tests, tst.id = test_id → tst.creator_id ≠ user_id) :
    get_test test_id user_id db = .error .notFound ∧
    update_test test_id user_id data db = .error .notFound ∧
    delete_test test_id user_id db = .error .notFound ∧
    get_test_stats test_id user_id db = .error .notFound ∧
    ∀ format, format = "csv" ∨ format = "json" ∨ format = "excel" →
      export_stats test_id user_id format db = .error .notFound := by
  have hgate := check_creator_permission_notFound hnz husr hown
  obtain ⟨usr, hu, hur⟩ := husr
  refine ⟨?_, ?_, ?_, ?_, ?_⟩
  · unfold get_test; rw [hgate]
  · unfold update_test; rw [hgate]
  · unfold delete_test; rw [hgate]
  · unfold get_test_stats
    rw [hu]; simp only []
    rw [if_neg (not_ne_iff.mpr hur)]
    cases htst : findTest db test_id with
    | none => rfl
    | some tst =>
      simp only []
      have htst' : db.tests.find? (fun x => x.id == test_id) = some tst := htst
      have h1 : tst.id = test_id := by simpa using List.find?_some htst'
      rw [if_pos (hown tst (List.mem_of_find?_eq_some htst') h1)]
  · intro fmt hfmt
    unfold export_stats
    rw [if_neg (not_not_intro hfmt)]
    rw [hu]; simp only []
    rw [if_neg (not_ne_iff.mpr hur)]
    cases htst : findTest db test_id with
    | none => rfl
    | some tst =>
      simp only []
      have htst' : db.tests.find? (fun x => x.id == test_id) = some tst := htst
      have h1 : tst.id = test_id := by simpa using List.find?_some htst'
      rw [if_pos (hown tst (List.mem_of_find?_eq_some htst') h1)]

/-- A store holding one creator (id 1) and no tests at all. -/
def dbC9 : DB :=
  { db0 with users := [⟨1, "c@example.com", "h", "creator"⟩], next_user_id := 2 }

/-- C9 counterexample: no test with id 0 exists in `dbC9`, yet
`delete_test 0` by the creator succeeds (as a no-op) instead of failing
with NotFound — Python's `if test_id:` in check_creator_permission is
false for the id 0, so the existence/ownership check is skipped. -/
theorem delete_test_zero_succeeds :
    (∀ tst ∈ dbC9.tests, tst.id ≠ 0) ∧ delete_test 0 1 dbC9 = .ok dbC9 :=
  ⟨by decide, rfl⟩

/-- Witness for `owner_gate_reports_not_found`: creator 2 of `dbEx`
addressing the non-existent test 7 gets NotFound from all five
operations. -/
theorem owner_gate_reports_not_found_witness :
    get_test 7 2 dbEx = .error .notFound ∧
    update_test 7 2 ⟨"X", none, none, false, []⟩ dbEx = .error .notFound ∧
    delete_test 7 2 dbEx = .error .notFound ∧
    get_test_stats 7 2 dbEx = .error .notFound ∧
    export_stats 7 2 "csv" dbEx = .error .notFound := by
  have h := owner_gate_reports_not_found 7 2 dbEx ⟨"X", none, none, false, []⟩ (by decide)
    ⟨⟨2, "c@example.com", "h2", "creator"⟩, by decide, rfl⟩ (by decide)
  exact ⟨h.1, h.2.1, h.2.2.1, h.2.2.2.1, h.2.2.2.2 "csv" (Or.inl rfl)⟩

end TestsFastAPI
